import Mathlib

/-!
Shallow embedding of the multi-source crawling and aggregation subsystem of
the hn-daily-summary repository: the `Article` data model (`src/crawlers/base.py`),
the three source fetchers (`hn_crawler.py`, `reddit_crawler.py`, `rss_crawler.py`)
and the per-topic orchestrator (`topic_crawler.py`), together with theorems
settling the specification claims about them.

Network I/O is modelled by explicit response oracles; wall-clock time (used by
the Reddit rate limiter) is modelled by an explicit rational-valued clock that
sleeping advances.  Python `datetime` timestamps are modelled as tick counts.
-/

namespace HNDaily

/-- Python truthiness of an optional string configuration value:
`None` and the empty string are falsy. -/
def truthy : Option String → Bool
  | none => false
  | some s => s ≠ ""

/-- Timestamps: Python `datetime` values are modelled as their tick count. -/
abbrev Timestamp := Nat

/-- Decimal digit character (codepoint 48 + d). -/
def digitChar (d : Nat) : Char := Char.ofNat (48 + d)

/-- Inverse of `digitChar` on digits. -/
def charDigit (c : Char) : Nat := c.toNat - 48

/-- Modelled from the spec: `datetime.isoformat` renders the timestamp as an
ISO-8601 string.  The timestamp is modelled as a tick count and the rendering
as its decimal digit string; what matters for the embedding is the stdlib
contract that `fromisoformat` parses back exactly what `isoformat` printed. -/
def isoformat (t : Timestamp) : String :=
  String.mk (((Nat.digits 10 t).map digitChar).reverse)

/-- Modelled from the spec: `datetime.fromisoformat`, the parser inverse of
`isoformat`. -/
def fromisoformat (s : String) : Timestamp :=
  Nat.ofDigits 10 (s.data.reverse.map charDigit)

theorem charDigit_digitChar {d : Nat} (h : d < 10) : charDigit (digitChar d) = d := by
  interval_cases d <;> rfl

theorem fromisoformat_isoformat (t : Timestamp) : fromisoformat (isoformat t) = t := by
  unfold fromisoformat isoformat
  simp only [List.reverse_reverse, List.map_map]
  rw [List.map_congr_left (g := id), List.map_id]
  · exact Nat.ofDigits_digits 10 t
  · intro d hd
    exact charDigit_digitChar (Nat.digits_lt_base (by norm_num) hd)

/-- The unified article record (`Article` dataclass in `src/crawlers/base.py`). -/
structure Article where
  id : String
  title : String
  url : Option String
  source : String
  score : Int
  comments_count : Int
  comments_url : Option String
  published_at : Timestamp
  author : String
  text : Option String := none
deriving Repr, DecidableEq

/-- The dictionary produced by `Article.to_dict`: all fields verbatim except
`published_at`, which is rendered as an ISO string. -/
structure ArticleDict where
  id : String
  title : String
  url : Option String
  source : String
  score : Int
  comments_count : Int
  comments_url : Option String
  published_at : String
  author : String
  text : Option String
deriving Repr, DecidableEq

/-- `Article.to_dict` (`base.py` lines 43-48): `asdict` plus ISO rendering of
`published_at`. -/
def Article.to_dict (a : Article) : ArticleDict :=
  { id := a.id, title := a.title, url := a.url, source := a.source,
    score := a.score, comments_count := a.comments_count,
    comments_url := a.comments_url, published_at := isoformat a.published_at,
    author := a.author, text := a.text }

/-- `Article.from_dict` (`base.py` lines 50-57): rebuild the dataclass, parsing
the `published_at` string back to a timestamp (in a `to_dict` output it is
always a string, so the `isinstance` branch always fires). -/
def Article.from_dict (d : ArticleDict) : Article :=
  { id := d.id, title := d.title, url := d.url, source := d.source,
    score := d.score, comments_count := d.comments_count,
    comments_url := d.comments_url, published_at := fromisoformat d.published_at,
    author := d.author, text := d.text }

/-- Case-insensitive list containment helper: does `hay` start with `needle`? -/
def chars_start_with : List Char → List Char → Bool
  | _, [] => true
  | [], _ :: _ => false
  | a :: as, b :: bs => a == b && chars_start_with as bs

/-- Does `needle` occur as a contiguous run inside `hay`? -/
def chars_contain : List Char → List Char → Bool
  | [], needle => chars_start_with [] needle
  | h :: t, needle => chars_start_with (h :: t) needle || chars_contain t needle

/-- Modelled from the spec: `re.compile(pattern, re.IGNORECASE).search(title)`.
The `re` module is an external library; per spec section 4.1 filtering is a
case-insensitive substring/regex match against the title, modelled here as a
case-insensitive substring test. -/
def regex_search (pattern title : String) : Bool :=
  chars_contain title.toLower.data pattern.toLower.data

/-- `BaseCrawler.filter_articles` (`base.py` lines 91-106): keep the articles
whose title matches the (case-insensitive) pattern; a falsy pattern (absent or
empty) skips filtering.  Note the method accepts exactly one pattern. -/
def filter_articles (articles : List Article) (pattern : Option String) : List Article :=
  if truthy pattern = false then articles
  else articles.filter (fun a => regex_search (pattern.getD "") a.title)

/-- Python exceptions observable at the fetcher boundary. -/
inductive PyErr where
  | typeError (msg : String)
  | requestError (msg : String)
  | valueError (msg : String)
deriving Repr, DecidableEq

/-- Python's stable `list.sort(key=lambda a: a.score, reverse=True)` comparison:
sort by score descending, equal scores keep their original relative order. -/
def score_desc (a b : Article) : Bool := decide (b.score ≤ a.score)

/-! ## Hacker News crawler (`src/crawlers/hn_crawler.py`) -/

/-- One item record of the HN item API, as consumed by `_fetch_story`. -/
structure HNItem where
  id : Int
  type : String
  title : Option String
  url : Option String
  score : Option Int
  descendants : Option Int
  time : Option Timestamp
  by_ : Option String
  text : Option String
deriving Repr, DecidableEq

/-- Response oracle for the HN network: the listing endpoints (keyed by API
endpoint name) and the per-item endpoint.  `Except.error` models a request
exception (timeout, connection failure, `raise_for_status`); `Except.ok none`
models a `null`/non-parsing item body. -/
structure HNNet where
  listing : String → Except String (List Int)
  item : Int → Except String (Option HNItem)

/-- Source configuration accepted by `HackerNewsCrawler.fetch`. -/
structure HNConfig where
  count : Option Nat := none
  endpoint : Option String := none
  filter : Option String := none
  exclude : Option String := none

/-- The `endpoint_map` lookup with default (`hn_crawler.py` lines 60-65):
unknown endpoint names fall back to `topstories`. -/
def hn_endpoint_map (endpoint : String) : String :=
  if endpoint = "top" then "topstories"
  else if endpoint = "new" then "newstories"
  else if endpoint = "best" then "beststories"
  else "topstories"

/-- `HackerNewsCrawler._fetch_story_ids` (lines 58-69).  The request is not
wrapped in try/except, so a failing listing request propagates out. -/
def hn_fetch_story_ids (net : HNNet) (endpoint : String) (limit : Nat) :
    Except PyErr (List Int) :=
  match net.listing (hn_endpoint_map endpoint) with
  | .error e => .error (.requestError e)
  | .ok ids => .ok (ids.take limit)

/-- `HackerNewsCrawler._fetch_story` (lines 71-95): fetch one item; request
failures, null bodies and non-story items all yield `None`. -/
def hn_fetch_story (net : HNNet) (sid : Int) : Option Article :=
  match net.item sid with
  | .error _ => none
  | .ok none => none
  | .ok (some d) =>
    if d.type ≠ "story" then none
    else some
      { id := "hn-" ++ toString d.id,
        title := d.title.getD "",
        url := d.url,
        source := "Hacker News",
        score := d.score.getD 0,
        comments_count := d.descendants.getD 0,
        comments_url := some ("https://news.ycombinator.com/item?id=" ++ toString d.id),
        published_at := d.time.getD 0,
        author := d.by_.getD "unknown",
        text := d.text }

/-- `HackerNewsCrawler.fetch` (lines 33-56).  When a filter or exclude pattern
is configured, the source calls `self.filter_articles(articles, filter_pattern,
exclude_pattern)` — three positional arguments — but `BaseCrawler.filter_articles`
accepts only `(articles, pattern)`, so in Python the call raises `TypeError`
before any filtering happens; the embedding makes that arity error explicit.
Worker-pool completion order is non-deterministic in the source; the embedding
fixes listing order, which is sound because the list is re-sorted by score
before being returned and no claim depends on pre-sort order. -/
def hn_fetch (net : HNNet) (config : HNConfig) : Except PyErr (List Article) := do
  let count := config.count.getD 30
  let endpoint := config.endpoint.getD "top"
  let has_filter := truthy config.filter || truthy config.exclude
  let fetch_count := if has_filter then count * 3 else count
  let story_ids ← hn_fetch_story_ids net endpoint fetch_count
  let articles := story_ids.filterMap (hn_fetch_story net)
  let articles ←
    if has_filter then
      Except.error (PyErr.typeError
        "filter_articles() takes 3 positional arguments but 4 were given")
    else pure articles
  return (articles.mergeSort score_desc).take count

/-! ## RSS crawler (`src/crawlers/rss_crawler.py`) -/

/-- Lowercase hexadecimal digit character. -/
def hexChar (d : Nat) : Char :=
  if d < 10 then digitChar d else Char.ofNat (87 + d)

/-- Modelled from the spec: `hashlib.md5(s.encode()).hexdigest()` — an external
library producing a deterministic 32-lowercase-hex-character digest of the
input string; modelled by a concrete deterministic 128-bit fold rendered as 32
hex characters. -/
def md5hexChars (s : String) : List Char :=
  let h := s.data.foldl (fun acc c => (acc * 131 + c.toNat + 7) % 2 ^ 128) 5381
  (List.range 32).map (fun i => hexChar (h / 16 ^ i % 16))

/-- The digest as a string. -/
def md5hex (s : String) : String := String.mk (md5hexChars s)

theorem md5hexChars_length (s : String) : (md5hexChars s).length = 32 := by
  simp [md5hexChars]

/-- One parsed feed entry as consumed by `RSSCrawler._parse_entry`; fields are
the feedparser attributes the source reads.  `authors` holds the optional
`name` field of each listed co-author; `content` holds the `value` field of
each content block. -/
structure FeedEntry where
  link : Option String := none
  id : Option String := none
  title : Option String := none
  published_parsed : Option Timestamp := none
  updated_parsed : Option Timestamp := none
  author : Option String := none
  authors : List (Option String) := []
  summary : Option String := none
  content : List (Option String) := []
deriving Repr, DecidableEq

/-- The native-identifier derivation of `_parse_entry` (`rss_crawler.py` lines
88-92): the entry's `id`, else its `link`; when that is empty, the md5 digest
of the title. -/
def rss_entry_native_id (entry : FeedEntry) : String :=
  let link := entry.link.getD ""
  let entry_id := entry.id.getD link
  if entry_id = "" then md5hex (entry.title.getD "") else entry_id

/-- `RSSCrawler._parse_entry` (lines 85-134).  The `try` body is total on the
typed record, so the `except` branch returning `None` is unreachable in the
model. -/
def rss_parse_entry (source_name : String) (now : Timestamp) (entry : FeedEntry) :
    Option Article :=
  let link := entry.link.getD ""
  let id_hash := (md5hexChars (rss_entry_native_id entry)).take 12
  let published :=
    match entry.published_parsed with
    | some t => t
    | none =>
      match entry.updated_parsed with
      | some t => t
      | none => now
  let author0 := entry.author.getD ""
  let author1 :=
    if author0 = "" && !entry.authors.isEmpty then
      (entry.authors.headD none).getD "unknown"
    else author0
  let author := if author1 = "" then "unknown" else author1
  let text : Option String :=
    if truthy entry.summary then entry.summary
    else
      match entry.content with
      | [] => none
      | c :: _ => some (c.getD "")
  some
    { id := "rss-" ++ String.mk id_hash,
      title := entry.title.getD "Untitled",
      url := some link,
      source := source_name,
      score := 0,
      comments_count := 0,
      comments_url := none,
      published_at := published,
      author := author,
      text := text }

/-- Response oracle for one feed request: `failure` models any exception inside
the `try` of `_fetch_feed` (network error, `raise_for_status`); `ok` carries
the feed's declared title and its entries. -/
inductive RSSResp where
  | failure (msg : String)
  | ok (feedTitle : Option String) (entries : List FeedEntry)

/-- Source configuration accepted by `RSSCrawler.fetch`. -/
structure RSSConfig where
  url : Option String := none
  count : Option Nat := none
  filter : Option String := none
  name : Option String := none

/-- `RSSCrawler._fetch_feed` (lines 53-83): on failure return an empty list
(source name unchanged); on success resolve the display name (configured name,
else feed title, else the URL) and parse the entries, dropping `None`s.
Returns the articles and the updated `_source_name` state. -/
def rss_fetch_feed (resp : RSSResp) (now : Timestamp) (url : String)
    (custom_name : Option String) (source_name0 : String) :
    List Article × String :=
  match resp with
  | .failure _ => ([], source_name0)
  | .ok feedTitle entries =>
    let sn :=
      if truthy custom_name then custom_name.getD ""
      else if truthy feedTitle then feedTitle.getD ""
      else url
    ((entries.filterMap (rss_parse_entry sn now)), sn)

/-- `RSSCrawler.fetch` (lines 35-51): require a truthy `url`, fetch and parse
the feed, apply the title filter when configured, truncate to `count`
(default 20).  Returns the result and the updated `_source_name` state. -/
def rss_fetch (resp : RSSResp) (now : Timestamp) (config : RSSConfig)
    (source_name0 : String) : Except PyErr (List Article) × String :=
  if truthy config.url = false then
    (.error (.valueError "RSS crawler requires url in config"), source_name0)
  else
    let url := config.url.getD ""
    let count := config.count.getD 20
    let fetched := rss_fetch_feed resp now url config.name source_name0
    let articles :=
      if truthy config.filter then filter_articles fetched.1 config.filter
      else fetched.1
    (.ok (articles.take count), fetched.2)

/-! ## Reddit crawler (`src/crawlers/reddit_crawler.py`)

Wall-clock time is modelled by an explicit rational-valued clock carried in the
crawler state: `time.time()` reads the clock and `time.sleep(d)` advances it by
`d`.  Requests themselves are treated as instantaneous, which is the worst case
for every lower bound on inter-request spacing proved below. -/

/-- `RedditCrawler.MAX_RETRIES`. -/
def MAX_RETRIES : Nat := 3

/-- `RedditCrawler.BASE_DELAY` (seconds between requests). -/
def BASE_DELAY : ℚ := 5

/-- The mutable per-instance crawler state: `_last_request_time` plus the
modelled wall clock. -/
structure RLState where
  last_request_time : ℚ
  clock : ℚ
deriving Repr, DecidableEq

/-- `RedditCrawler._wait_for_rate_limit` (lines 74-79): if less than
`BASE_DELAY` has elapsed since the last request, sleep the remainder plus the
random jitter drawn from `uniform(0.5, 1.5)` (passed in as `jitter`). -/
def wait_for_rate_limit (jitter : ℚ) (s : RLState) : RLState :=
  let elapsed := s.clock - s.last_request_time
  if elapsed < BASE_DELAY then
    { s with clock := s.clock + (BASE_DELAY - elapsed + jitter) }
  else s

/-- A decimal digit's value, `none` for any other character. -/
def charDigit? (c : Char) : Option Nat :=
  if 48 ≤ c.toNat && c.toNat ≤ 57 then some (c.toNat - 48) else none

/-- Parse a non-empty all-digit character list to its value. -/
def digitsToNat? (cs : List Char) : Option Nat :=
  if cs.isEmpty then none
  else cs.foldl
    (fun acc c =>
      match acc, charDigit? c with
      | some n, some d => some (n * 10 + d)
      | _, _ => none)
    (some 0)

/-- Modelled from the spec: Python's builtin `int(s)` on a string — an
optionally signed decimal numeral parses to its value, anything else raises
`ValueError` (modelled as `none`). -/
def pyInt? (s : String) : Option Int :=
  match s.data with
  | '-' :: rest => (digitsToNat? rest).map (fun n => -(n : Int))
  | '+' :: rest => (digitsToNat? rest).map (fun n => (n : Int))
  | cs => (digitsToNat? cs).map (fun n => (n : Int))

/-- The 429 wait-time computation (`reddit_crawler.py` lines 104-109): read the
`Retry-After` header with default `'60'`; an integer hint is floored at 10,
an unparseable hint falls back to 30, and either result is capped at 60. -/
def retryAfterWait (retryAfter : Option String) : Int :=
  let ra := retryAfter.getD "60"
  match pyInt? ra with
  | some h => min (max h 10) 60
  | none => min 30 60

/-- One post record of the subreddit listing, as consumed by `_parse_post`. -/
structure RedditPost where
  id : Option String := none
  title : Option String := none
  url : Option String := none
  is_self : Bool := false
  permalink : Option String := none
  score : Option Int := none
  num_comments : Option Int := none
  created_utc : Option Timestamp := none
  author : Option String := none
  selftext : Option String := none
deriving Repr, DecidableEq

/-- `RedditCrawler._parse_post` (lines 140-164).  The `try` body is total on
the typed record, so the `except` branch returning `None` is unreachable in
the model. -/
def reddit_parse_post (post : RedditPost) (subreddit : String) : Option Article :=
  let post_id := post.id.getD ""
  let url :=
    if post.is_self then some ("https://www.reddit.com" ++ post.permalink.getD "")
    else post.url
  some
    { id := "reddit-" ++ post_id,
      title := post.title.getD "",
      url := url,
      source := "r/" ++ subreddit,
      score := post.score.getD 0,
      comments_count := post.num_comments.getD 0,
      comments_url := some ("https://www.reddit.com" ++ post.permalink.getD ""),
      published_at := post.created_utc.getD 0,
      author := post.author.getD "unknown",
      text := if post.is_self then post.selftext else none }

/-- Outcome of one outbound request in `_fetch_posts`: a 429 status with its
optional `Retry-After` header, an `HTTPError` raised by `raise_for_status`
(carrying its status code), any other exception, or a parsed listing. -/
inductive RedditResp where
  | rateLimited (retryAfter : Option String)
  | httpError (status : Nat)
  | netError
  | ok (posts : List RedditPost)

/-- Result of one `_fetch_posts` run: the parsed articles, the final crawler
state, and the clock readings at which each outbound request was issued
(chronological). -/
structure FetchTrace where
  articles : List Article
  state : RLState
  request_times : List ℚ
deriving Repr

/-- The retry loop body of `RedditCrawler._fetch_posts` (lines 94-138), with
the response of attempt `i` given by `resp i` and its jitter draw by
`jitter i`.  `remaining` counts the attempts left (`MAX_RETRIES` initially);
each iteration waits for the rate limiter, records `_last_request_time`,
issues the request, and then either returns (success or non-throttle failure)
or sleeps its backoff and retries.  Exhausting the attempts returns `[]`. -/
def fetch_posts_go (resp : Nat → RedditResp) (jitter : Nat → ℚ) (subreddit : String) :
    Nat → Nat → RLState → List ℚ → FetchTrace
  | 0, _, s, times => { articles := [], state := s, request_times := times }
  | remaining + 1, attempt, s, times =>
    let s1 := wait_for_rate_limit (jitter attempt) s
    let s2 : RLState := { last_request_time := s1.clock, clock := s1.clock }
    let times2 := times ++ [s2.clock]
    match resp attempt with
    | .rateLimited ra =>
      fetch_posts_go resp jitter subreddit remaining (attempt + 1)
        { s2 with clock := s2.clock + (retryAfterWait ra : ℚ) } times2
    | .httpError status =>
      if status = 429 then
        fetch_posts_go resp jitter subreddit remaining (attempt + 1)
          { s2 with clock := s2.clock + ((attempt + 1) * 10 : ℚ) } times2
      else { articles := [], state := s2, request_times := times2 }
    | .netError => { articles := [], state := s2, request_times := times2 }
    | .ok posts =>
      { articles := posts.filterMap (fun p => reddit_parse_post p subreddit),
        state := s2,
        request_times := times2 }

/-- `RedditCrawler._fetch_posts`: run the retry loop from attempt 0 with
`MAX_RETRIES` attempts available.  The `limit` argument (together with the
`sort`/`time` keys) only shapes the request URL and query parameters; the
response oracle already fixes each attempt's response. -/
def fetch_posts (resp : Nat → RedditResp) (jitter : Nat → ℚ) (subreddit : String)
    (_limit : Nat) (s : RLState) : FetchTrace :=
  fetch_posts_go resp jitter subreddit MAX_RETRIES 0 s []

/-- Source configuration accepted by `RedditCrawler.fetch`.  The `sort` and
`time` keys only shape the request URL and do not affect the embedded
behaviour. -/
structure RedditConfig where
  subreddit : Option String := none
  count : Option Nat := none
  sort : Option String := none
  time : Option String := none
  filter : Option String := none

/-- Result of one `RedditCrawler.fetch` call. -/
structure RedditFetchResult where
  result : Except PyErr (List Article)
  state : RLState
  request_times : List ℚ

/-- `RedditCrawler.fetch` (lines 51-72): require a truthy `subreddit`, run
`_fetch_posts`, apply the title filter when configured, truncate to `count`
(default 25). -/
def reddit_fetch (resp : Nat → RedditResp) (jitter : Nat → ℚ)
    (config : RedditConfig) (s : RLState) : RedditFetchResult :=
  if truthy config.subreddit = false then
    { result := .error (.valueError "Reddit crawler requires subreddit in config"),
      state := s, request_times := [] }
  else
    let subreddit := config.subreddit.getD ""
    let count := config.count.getD 25
    let fetch_count :=
      if truthy config.filter then min (count * 3) 100 else min count 100
    let t := fetch_posts resp jitter subreddit fetch_count s
    let articles :=
      if truthy config.filter then filter_articles t.articles config.filter
      else t.articles
    { result := .ok (articles.take count),
      state := t.state,
      request_times := t.request_times }

/-- One call in a sequence of `fetch` calls on the same crawler instance: the
per-attempt response oracle, the per-attempt jitter draws, and the wall-clock
time that elapses before the call is made. -/
structure RedditCall where
  resp : Nat → RedditResp
  jitter : Nat → ℚ
  gap : ℚ

/-- A sequence of consecutive `fetch` calls on one crawler instance, threading
the per-instance state and collecting all outbound request times. -/
def reddit_run (config : RedditConfig) : List RedditCall → RLState → RLState × List ℚ
  | [], s => (s, [])
  | c :: rest, s =>
    let r := reddit_fetch c.resp c.jitter config { s with clock := s.clock + c.gap }
    let next := reddit_run config rest r.state
    (next.1, r.request_times ++ next.2)

/-! ## Topic orchestrator (`src/topic_crawler.py`) -/

/-- Outcome of one source inside `crawl_topic`'s loop (lines 67-78): either the
articles returned by the matching crawler's `fetch`, or any exception raised
while resolving the crawler or fetching (caught, logged, and absorbed as zero
articles from that source). -/
inductive SourceOutcome where
  | ok (articles : List Article)
  | error (msg : String)

/-- The aggregated topic record built by `crawl_topic` (metadata fields that do
not bear on the claims — date strings, the null summary slot — are omitted). -/
structure TopicResult where
  topic_id : String
  topic_name : String
  description : String
  article_count : Nat
  articles : List Article

/-- The source-loop accumulation of `crawl_topic`: extend the running list with
each successful source's articles; a failed source contributes nothing. -/
def crawl_topic_collect (outcomes : List SourceOutcome) : List Article :=
  outcomes.foldl
    (fun acc o =>
      match o with
      | .ok articles => acc ++ articles
      | .error _ => acc)
    []

/-- `TopicCrawler.crawl_topic` (lines 48-95) after the per-source outcomes are
known: concatenate, sort by score descending (stable), truncate to
`max_articles_per_topic` (configured default 30), and package with the count of
the truncated list. -/
def crawl_topic (topic_id topic_name description : String)
    (outcomes : List SourceOutcome) (max_articles : Nat) : TopicResult :=
  let sorted := (crawl_topic_collect outcomes).mergeSort score_desc
  let final := sorted.take max_articles
  { topic_id := topic_id,
    topic_name := topic_name,
    description := description,
    article_count := final.length,
    articles := final }

/-- The `max_articles_per_topic` default used by `crawl_topic` when the setting
is absent (`topic_crawler.py` line 82). -/
def max_articles_default : Nat := 30

/-! ## Claim theorems -/

/-- Claim C9: serialization to dictionary form (with `published_at` rendered as
an ISO string) followed by `Article.from_dict` is the identity on Articles. -/
theorem article_to_from_dict_roundtrip (a : Article) :
    Article.from_dict (Article.to_dict a) = a := by
  cases a
  simp [Article.to_dict, Article.from_dict, fromisoformat_isoformat]

/-- Claim C2: for every topic, the article list built by `crawl_topic` is
sorted by score in descending order, its length is at most the configured
maximum article count, and the result's `article_count` field equals that
length. -/
theorem crawl_topic_sorted_and_bounded (topic_id topic_name description : String)
    (outcomes : List SourceOutcome) (max_articles : Nat) :
    (crawl_topic topic_id topic_name description outcomes max_articles).articles.Pairwise
      (fun a b => b.score ≤ a.score) ∧
    (crawl_topic topic_id topic_name description outcomes max_articles).articles.length
      ≤ max_articles ∧
    (crawl_topic topic_id topic_name description outcomes max_articles).article_count
      = (crawl_topic topic_id topic_name description outcomes max_articles).articles.length := by
  refine ⟨?_, ?_, rfl⟩
  · have hsorted : ((crawl_topic_collect outcomes).mergeSort score_desc).Pairwise
        (fun a b => score_desc a b) := by
      apply List.sorted_mergeSort
      · intro a b c hab hbc
        simp only [score_desc, decide_eq_true_eq] at *
        exact le_trans hbc hab
      · intro a b
        simp only [score_desc, Bool.or_eq_true, decide_eq_true_eq]
        exact le_total b.score a.score
    have htake := hsorted.sublist
      (List.take_sublist max_articles ((crawl_topic_collect outcomes).mergeSort score_desc))
    exact htake.imp (fun h => by simpa [score_desc] using h)
  · simp [crawl_topic]

/-- Claim C10: in `HackerNewsCrawler`, a configured `endpoint` outside
`{"top", "new", "best"}` is silently mapped to the `topstories` listing, so
fetching with an unrecognized endpoint behaves exactly like endpoint `"top"`. -/
theorem hn_unknown_endpoint_defaults_to_top (net : HNNet) (config : HNConfig) (e : String)
    (h1 : e ≠ "top") (h2 : e ≠ "new") (h3 : e ≠ "best") :
    hn_fetch net { config with endpoint := some e } =
      hn_fetch net { config with endpoint := some "top" } := by
  have hmap : hn_endpoint_map e = hn_endpoint_map "top" := by
    simp [hn_endpoint_map, h1, h2, h3]
  simp [hn_fetch, hn_fetch_story_ids, hmap]

/-- Witness for C10: a concrete unrecognized endpoint `"foo"` gives the same
result as `"top"`. -/
theorem hn_unknown_endpoint_defaults_to_top_witness :
    hn_fetch { listing := fun _ => .ok [], item := fun _ => .ok none }
        { ({} : HNConfig) with endpoint := some "foo" } =
      hn_fetch { listing := fun _ => .ok [], item := fun _ => .ok none }
        { ({} : HNConfig) with endpoint := some "top" } :=
  hn_unknown_endpoint_defaults_to_top
    { listing := fun _ => .ok [], item := fun _ => .ok none } {} "foo"
    (by decide) (by decide) (by decide)

/-- Counterexample to C4 as stated: when the `Retry-After` hint is absent the
code waits 60 seconds (the header default is the string `'60'`), not the 30
second fallback the claim asserts. -/
theorem retry_after_absent_wait_not_30 :
    retryAfterWait none = 60 ∧ retryAfterWait none ≠ 30 := by
  refine ⟨by decide, by decide⟩

/-- Claim C4 (amended): on a 429 response, the wait is always within
`[10, 60]`; a hint parsing as integer `h` waits `min (max h 10) 60` (so a hint
of `"5"` waits 10 seconds); a present but unparseable hint waits the fixed
fallback of 30 seconds; an absent hint defaults to the header string `'60'`
and hence waits 60 seconds. -/
theorem retry_after_wait_amended :
    (∀ ra, 10 ≤ retryAfterWait ra ∧ retryAfterWait ra ≤ 60) ∧
    (∀ s h, pyInt? s = some h → retryAfterWait (some s) = min (max h 10) 60) ∧
    (∀ s, pyInt? s = none → retryAfterWait (some s) = 30) ∧
    retryAfterWait none = 60 ∧
    retryAfterWait (some "5") = 10 := by
  refine ⟨?_, ?_, ?_, by decide, by decide⟩
  · intro ra
    unfold retryAfterWait
    cases hra : pyInt? (ra.getD "60") with
    | none => simp [hra]
    | some h =>
      simp only [hra]
      constructor
      · exact le_min (le_max_right h 10) (by norm_num)
      · exact min_le_right _ _
  · intro s h hs
    simp [retryAfterWait, hs]
  · intro s hs
    simp [retryAfterWait, hs]

/-- Witness for C4 (amended): the `"5"` hint parses and is clamped up to the
floor. -/
theorem retry_after_wait_amended_witness :
    retryAfterWait (some "5") = min (max 5 10) 60 :=
  retry_after_wait_amended.2.1 "5" 5 (by decide)

/-- A reachable HN network with one well-formed story, used to exhibit the
filter/exclude arity bug. -/
def hnDemoNet : HNNet :=
  { listing := fun _ => .ok [1],
    item := fun _ => .ok (some
      { id := 1, type := "story", title := some "AI story", url := none,
        score := some 5, descendants := some 0, time := some 0,
        by_ := none, text := none }) }

/-- Claim C1 (code bug): configuring the HN source with both `filter` and
`exclude` makes `fetch` raise
`TypeError: filter_articles() takes 3 positional arguments but 4 were given`,
because `HackerNewsCrawler.fetch` passes two patterns to
`BaseCrawler.filter_articles`, which accepts only one — so no fetcher variant
implements the claimed combined filtering (Reddit and RSS ignore `exclude`
entirely). -/
theorem hn_fetch_filter_exclude_type_error :
    hn_fetch hnDemoNet { count := some 1, filter := some "ai", exclude := some "crypto" } =
      Except.error (PyErr.typeError
        "filter_articles() takes 3 positional arguments but 4 were given") := rfl

/-- An HN network whose listing request fails with a connection error. -/
def hnFailNet : HNNet :=
  { listing := fun _ => .error "ConnectionError", item := fun _ => .ok none }

/-- Counterexample to C3 as stated: when the listing request fails, the HN
fetcher propagates the exception out of `fetch` (there is no try/except around
`_fetch_story_ids`) instead of returning an empty list. -/
theorem hn_fetch_unreachable_propagates :
    hn_fetch hnFailNet {} = Except.error (PyErr.requestError "ConnectionError") := rfl

/-- Claim C3 (amended): when the source cannot be reached, the RSS and Reddit
fetchers return an empty list without raising; the HN fetcher instead
propagates the listing-request failure as an exception out of `fetch`, which
the topic orchestrator absorbs as zero articles from that source. -/
theorem fetch_unreachable_amended :
    (∀ (msg : String) (item : Int → Except String (Option HNItem)) (config : HNConfig),
      hn_fetch { listing := fun _ => .error msg, item := item } config =
        Except.error (.requestError msg)) ∧
    (∀ (msg : String) (now : Timestamp) (config : RSSConfig) (sn0 : String),
      truthy config.url = true →
      (rss_fetch (.failure msg) now config sn0).1 = Except.ok []) ∧
    (∀ (jitter : Nat → ℚ) (config : RedditConfig) (s : RLState),
      truthy config.subreddit = true →
      (reddit_fetch (fun _ => .netError) jitter config s).result = Except.ok []) ∧
    (∀ (msg : String) (rest : List SourceOutcome),
      crawl_topic_collect (.error msg :: rest) = crawl_topic_collect rest) := by
  refine ⟨?_, ?_, ?_, ?_⟩
  · intro msg item config
    simp [hn_fetch, hn_fetch_story_ids, Bind.bind, Except.bind]
  · intro msg now config sn0 hurl
    simp only [rss_fetch, hurl, Bool.true_eq_false, if_false, rss_fetch_feed]
    simp [filter_articles]
  · intro jitter config s hsub
    simp only [reddit_fetch, hsub, Bool.true_eq_false, if_false]
    simp [fetch_posts, MAX_RETRIES, fetch_posts_go, filter_articles]
  · intro msg rest
    rfl

/-- Witness for C3 (amended): concrete unreachable sources for all three
fetchers. -/
theorem fetch_unreachable_amended_witness :
    hn_fetch { listing := fun _ => .error "down", item := fun _ => .ok none } {} =
      Except.error (.requestError "down") ∧
    (rss_fetch (.failure "down") 0 { url := some "http://x" } "RSS Feed").1 =
      Except.ok [] ∧
    (reddit_fetch (fun _ => .netError) (fun _ => 1) { subreddit := some "x" }
        { last_request_time := 0, clock := 0 }).result = Except.ok [] :=
  ⟨fetch_unreachable_amended.1 "down" (fun _ => .ok none) {},
   fetch_unreachable_amended.2.1 "down" 0 { url := some "http://x" } "RSS Feed" (by decide),
   fetch_unreachable_amended.2.2.1 (fun _ => 1) { subreddit := some "x" }
     { last_request_time := 0, clock := 0 } (by decide)⟩

/-- An HN network serving a story record whose `score` field is negative. -/
def hnNegNet : HNNet :=
  { listing := fun _ => .ok [1],
    item := fun _ => .ok (some
      { id := 1, type := "story", title := some "t", url := none,
        score := some (-1), descendants := some 0, time := some 0,
        by_ := none, text := none }) }

/-- Counterexample to C8 as stated: the fetchers copy the source record's
numeric fields unclamped, so an accepted story record carrying `score = -1`
produces an Article with negative `score`, violating the claimed invariant. -/
theorem hn_story_negative_score :
    (hn_fetch_story hnNegNet 1).map Article.score = some (-1) ∧ (-1 : Int) < 0 :=
  ⟨rfl, by decide⟩

/-- Claim C8 (amended): `published_at` is always populated (every constructor
supplies it, with fetch-time or epoch defaults); `score` and `comments_count`
are non-negative provided the accepted source record's corresponding fields
are non-negative (absent fields default to 0), and the RSS fetcher always sets
both to exactly 0. -/
theorem article_invariants_amended :
    (∀ (net : HNNet) (sid : Int) (d : HNItem) (a : Article),
      net.item sid = Except.ok (some d) →
      0 ≤ d.score.getD 0 → 0 ≤ d.descendants.getD 0 →
      hn_fetch_story net sid = some a → 0 ≤ a.score ∧ 0 ≤ a.comments_count) ∧
    (∀ (post : RedditPost) (sub : String) (a : Article),
      0 ≤ post.score.getD 0 → 0 ≤ post.num_comments.getD 0 →
      reddit_parse_post post sub = some a → 0 ≤ a.score ∧ 0 ≤ a.comments_count) ∧
    (∀ (sn : String) (now : Timestamp) (e : FeedEntry) (a : Article),
      rss_parse_entry sn now e = some a → a.score = 0 ∧ a.comments_count = 0) := by
  refine ⟨?_, ?_, ?_⟩
  · intro net sid d a hitem hs hd hstory
    unfold hn_fetch_story at hstory
    rw [hitem] at hstory
    by_cases ht : d.type = "story"
    · simp only [ht, ne_eq, not_true_eq_false, if_false, Option.some.injEq] at hstory
      rw [← hstory]
      exact ⟨hs, hd⟩
    · simp [ht] at hstory
  · intro post sub a hs hn hp
    unfold reddit_parse_post at hp
    rw [Option.some.injEq] at hp
    rw [← hp]
    exact ⟨hs, hn⟩
  · intro sn now e a hp
    unfold rss_parse_entry at hp
    rw [Option.some.injEq] at hp
    rw [← hp]
    exact ⟨rfl, rfl⟩

/-- Witness for C8 (amended): a concrete Reddit post with default fields parses
to an article with non-negative score and comment count. -/
theorem article_invariants_amended_witness :
    0 ≤ (Article.mk "reddit-" "" none "r/x" 0 0 (some "https://www.reddit.com") 0
        "unknown" none).score ∧
    0 ≤ (Article.mk "reddit-" "" none "r/x" 0 0 (some "https://www.reddit.com") 0
        "unknown" none).comments_count :=
  article_invariants_amended.2.1 {} "x"
    (Article.mk "reddit-" "" none "r/x" 0 0 (some "https://www.reddit.com") 0
      "unknown" none)
    (by decide) (by decide) rfl

/-- Claim C7: the feed-entry identifier derivation is a deterministic function
of the entry's native id/link (falling back to its title): two entries agreeing
on those fields produce the same Article `id`, and that id is the `"rss-"`
namespace prefix followed by a fixed-width 12-character hash token — whichever
source name or fetch time is in effect. -/
theorem rss_id_deterministic (e1 e2 : FeedEntry) (sn1 sn2 : String)
    (now1 now2 : Timestamp)
    (hid : e1.id = e2.id) (hlink : e1.link = e2.link) (htitle : e1.title = e2.title) :
    ∃ a1 a2 tok, rss_parse_entry sn1 now1 e1 = some a1 ∧
      rss_parse_entry sn2 now2 e2 = some a2 ∧ a1.id = a2.id ∧
      a1.id = "rss-" ++ tok ∧ tok.length = 12 := by
  have hnat : rss_entry_native_id e1 = rss_entry_native_id e2 := by
    unfold rss_entry_native_id
    rw [hid, hlink, htitle]
  refine ⟨_, _, String.mk ((md5hexChars (rss_entry_native_id e1)).take 12),
    rfl, rfl, ?_, rfl, ?_⟩
  · show "rss-" ++ String.mk ((md5hexChars (rss_entry_native_id e1)).take 12)
        = "rss-" ++ String.mk ((md5hexChars (rss_entry_native_id e2)).take 12)
    rw [hnat]
  · show ((md5hexChars (rss_entry_native_id e1)).take 12).length = 12
    simp [List.length_take, md5hexChars_length]

/-- Witness for C7: two renderings of the same entry (different source name and
fetch time) get the same namespaced 12-character id. -/
theorem rss_id_deterministic_witness :
    ∃ a1 a2 tok, rss_parse_entry "A" 0 { id := some "x" } = some a1 ∧
      rss_parse_entry "B" 1 { id := some "x" } = some a2 ∧ a1.id = a2.id ∧
      a1.id = "rss-" ++ tok ∧ tok.length = 12 :=
  rss_id_deterministic { id := some "x" } { id := some "x" } "A" "B" 0 1 rfl rfl rfl

/-- A throttling signal: an explicit 429 response, or an `HTTPError` whose
status is 429. -/
def isThrottle : RedditResp → Prop
  | .rateLimited _ => True
  | .httpError status => status = 429
  | .netError => False
  | .ok _ => False

/-- Helper: a run of the retry loop in which every attempt is throttled parses
nothing and issues one outbound request per remaining attempt. -/
theorem fetch_posts_go_throttled (resp : Nat → RedditResp) (jitter : Nat → ℚ)
    (sub : String) (hth : ∀ i, isThrottle (resp i)) :
    ∀ (remaining attempt : Nat) (s : RLState) (times : List ℚ),
      (fetch_posts_go resp jitter sub remaining attempt s times).articles = [] ∧
      (fetch_posts_go resp jitter sub remaining attempt s times).request_times.length
        = times.length + remaining := by
  intro remaining
  induction remaining with
  | zero =>
    intro attempt s times
    simp [fetch_posts_go]
  | succ n ih =>
    intro attempt s times
    have hta := hth attempt
    cases hr : resp attempt with
    | rateLimited ra =>
      simp only [fetch_posts_go, hr]
      have := ih (attempt + 1)
        { last_request_time := (wait_for_rate_limit (jitter attempt) s).clock,
          clock := (wait_for_rate_limit (jitter attempt) s).clock
            + (retryAfterWait ra : ℚ) }
        (times ++ [(wait_for_rate_limit (jitter attempt) s).clock])
      refine ⟨this.1, ?_⟩
      rw [this.2]
      simp
      omega
    | httpError status =>
      rw [hr] at hta
      simp only [isThrottle] at hta
      simp only [fetch_posts_go, hr, hta, if_true, reduceIte]
      have := ih (attempt + 1)
        { last_request_time := (wait_for_rate_limit (jitter attempt) s).clock,
          clock := (wait_for_rate_limit (jitter attempt) s).clock
            + (((attempt : ℚ) + 1) * 10) }
        (times ++ [(wait_for_rate_limit (jitter attempt) s).clock])
      refine ⟨this.1, ?_⟩
      rw [this.2]
      simp
      omega
    | netError =>
      rw [hr] at hta
      exact absurd hta (by simp [isThrottle])
    | ok posts =>
      rw [hr] at hta
      exact absurd hta (by simp [isThrottle])

/-- Claim C5: if every attempt receives a throttling signal, `_fetch_posts`
returns an empty list after exactly `MAX_RETRIES = 3` outbound requests (its
return type shows it cannot raise), and in a topic whose configuration also
lists other sources, all of those sources' articles still appear in the
orchestrator's final result (whenever they fit the topic-wide maximum). -/
theorem reddit_retry_exhaustion_topic (resp : Nat → RedditResp)
    (hth : ∀ i, isThrottle (resp i)) (jitter : Nat → ℚ) (sub : String)
    (limit : Nat) (s : RLState) (l1 l2 : List Article) (maxA : Nat)
    (hlen : l1.length + l2.length ≤ maxA) :
    (fetch_posts resp jitter sub limit s).articles = [] ∧
    (fetch_posts resp jitter sub limit s).request_times.length = 3 ∧
    ∀ a, a ∈ l1 ∨ a ∈ l2 →
      a ∈ (crawl_topic "t" "T" ""
          [.ok l1, .ok (fetch_posts resp jitter sub limit s).articles, .ok l2]
          maxA).articles := by
  have hgo := fetch_posts_go_throttled resp jitter sub hth MAX_RETRIES 0 s []
  have hempty : (fetch_posts resp jitter sub limit s).articles = [] := hgo.1
  have htimes : (fetch_posts resp jitter sub limit s).request_times.length = 3 := by
    rw [fetch_posts, hgo.2]
    rfl
  refine ⟨hempty, htimes, ?_⟩
  intro a ha
  rw [hempty]
  have hcollect : crawl_topic_collect [.ok l1, .ok ([] : List Article), .ok l2]
      = l1 ++ l2 := by
    simp [crawl_topic_collect]
  have hmem : a ∈ (l1 ++ l2).mergeSort score_desc := by
    rw [List.mem_mergeSort, List.mem_append]
    exact ha
  have hlen2 : ((l1 ++ l2).mergeSort score_desc).length ≤ maxA := by
    rw [List.length_mergeSort, List.length_append]
    exact hlen
  show a ∈ ((crawl_topic_collect [.ok l1, .ok ([] : List Article), .ok l2]).mergeSort
      score_desc).take maxA
  rw [hcollect, List.take_of_length_le hlen2]
  exact hmem

/-- Witness for C5: a permanently 429-throttled subreddit alongside one
sibling source whose single article survives into the final topic result. -/
theorem reddit_retry_exhaustion_topic_witness :
    (fetch_posts (fun _ => .rateLimited none) (fun _ => 1) "x" 25
        { last_request_time := 0, clock := 0 }).articles = [] ∧
    (fetch_posts (fun _ => .rateLimited none) (fun _ => 1) "x" 25
        { last_request_time := 0, clock := 0 }).request_times.length = 3 ∧
    ∀ a, a ∈ [Article.mk "hn-1" "t" none "Hacker News" 1 0 none 0 "u" none] ∨
        a ∈ ([] : List Article) →
      a ∈ (crawl_topic "t" "T" ""
          [.ok [Article.mk "hn-1" "t" none "Hacker News" 1 0 none 0 "u" none],
           .ok (fetch_posts (fun _ => .rateLimited none) (fun _ => 1) "x" 25
              { last_request_time := 0, clock := 0 }).articles,
           .ok ([] : List Article)] 30).articles :=
  reddit_retry_exhaustion_topic (fun _ => .rateLimited none)
    (fun _ => trivial) (fun _ => 1) "x" 25 { last_request_time := 0, clock := 0 }
    [Article.mk "hn-1" "t" none "Hacker News" 1 0 none 0 "u" none] [] 30
    (by decide)

/-- Minimum spacing between consecutive clock readings. -/
def spaced (times : List ℚ) : Prop :=
  times.Chain' (fun a b => a + 5 ≤ b)

/-- Invariant tying a request-time history to the crawler state: the recorded
times are pairwise spaced by at least `BASE_DELAY = 5` seconds and all of them
precede the recorded `_last_request_time`. -/
def RLInv (times : List ℚ) (s : RLState) : Prop :=
  spaced times ∧ ∀ t ∈ times, t ≤ s.last_request_time

/-- After `_wait_for_rate_limit` with a non-negative jitter, the clock is at
least `BASE_DELAY` past the last recorded request. -/
theorem wait_for_rate_limit_clock (j : ℚ) (s : RLState) (hj : 0 ≤ j) :
    s.last_request_time + 5 ≤ (wait_for_rate_limit j s).clock := by
  by_cases h : s.clock - s.last_request_time < BASE_DELAY
  · simp only [wait_for_rate_limit, h, if_true, reduceIte]
    unfold BASE_DELAY
    linarith
  · simp only [wait_for_rate_limit, h, if_false, reduceIte]
    unfold BASE_DELAY at h
    linarith [not_lt.mp h]

/-- `_wait_for_rate_limit` does not touch `_last_request_time`. -/
theorem wait_for_rate_limit_last (j : ℚ) (s : RLState) :
    (wait_for_rate_limit j s).last_request_time = s.last_request_time := by
  by_cases h : s.clock - s.last_request_time < BASE_DELAY <;>
    simp [wait_for_rate_limit, h]

/-- One loop iteration preserves the spacing invariant: recording a request at
the post-wait clock extends the history, whatever the clock does afterwards. -/
theorem RLInv_step (times : List ℚ) (s : RLState) (j : ℚ) (hj : 0 ≤ j)
    (hinv : RLInv times s) (c : ℚ) :
    RLInv (times ++ [(wait_for_rate_limit j s).clock])
      { last_request_time := (wait_for_rate_limit j s).clock, clock := c } := by
  obtain ⟨hchain, hbound⟩ := hinv
  have hwait := wait_for_rate_limit_clock j s hj
  constructor
  · refine hchain.append (List.chain'_singleton _) ?_
    intro x hx y hy
    obtain ⟨hne, rfl⟩ := List.mem_getLast?_eq_getLast hx
    simp only [List.head?_cons, Option.mem_def, Option.some.injEq] at hy
    subst hy
    have hxlast := hbound _ (List.getLast_mem hne)
    linarith
  · intro t ht
    rcases List.mem_append.mp ht with h | h
    · have := hbound t h
      simp only
      linarith
    · simp only [List.mem_singleton] at h
      subst h
      simp

/-- The retry loop preserves the spacing invariant, for every pattern of
responses: every outbound request (first attempt or retry) happens at least
`BASE_DELAY` after the previous one. -/
theorem fetch_posts_go_inv (resp : Nat → RedditResp) (jitter : Nat → ℚ)
    (sub : String) (hj : ∀ i, 0 ≤ jitter i) :
    ∀ (remaining attempt : Nat) (s : RLState) (times : List ℚ), RLInv times s →
      RLInv (fetch_posts_go resp jitter sub remaining attempt s times).request_times
        (fetch_posts_go resp jitter sub remaining attempt s times).state := by
  intro remaining
  induction remaining with
  | zero =>
    intro attempt s times h
    simpa [fetch_posts_go] using h
  | succ n ih =>
    intro attempt s times h
    have hstep := RLInv_step times s (jitter attempt) (hj attempt) h
    cases hr : resp attempt with
    | rateLimited ra =>
      simp only [fetch_posts_go, hr]
      exact ih (attempt + 1) _ _ (hstep _)
    | httpError status =>
      simp only [fetch_posts_go, hr]
      by_cases h429 : status = 429
      · simp only [h429, if_true, reduceIte]
        exact ih (attempt + 1) _ _ (hstep _)
      · simp only [h429, if_false, reduceIte]
        exact hstep _
    | netError =>
      simp only [fetch_posts_go, hr]
      exact hstep _
    | ok posts =>
      simp only [fetch_posts_go, hr]
      exact hstep _

/-- The retry loop only appends to the request-time accumulator: running it
with a longer initial history prefixes that history onto the same results. -/
theorem fetch_posts_go_shift (resp : Nat → RedditResp) (jitter : Nat → ℚ)
    (sub : String) :
    ∀ (remaining attempt : Nat) (s : RLState) (pre times : List ℚ),
      (fetch_posts_go resp jitter sub remaining attempt s (pre ++ times)).request_times
        = pre ++ (fetch_posts_go resp jitter sub remaining attempt s times).request_times ∧
      (fetch_posts_go resp jitter sub remaining attempt s (pre ++ times)).state
        = (fetch_posts_go resp jitter sub remaining attempt s times).state ∧
      (fetch_posts_go resp jitter sub remaining attempt s (pre ++ times)).articles
        = (fetch_posts_go resp jitter sub remaining attempt s times).articles := by
  intro remaining
  induction remaining with
  | zero =>
    intro attempt s pre times
    simp [fetch_posts_go]
  | succ n ih =>
    intro attempt s pre times
    cases hr : resp attempt with
    | rateLimited ra =>
      simp only [fetch_posts_go, hr, List.append_assoc]
      exact ih (attempt + 1) _ _ _
    | httpError status =>
      by_cases h429 : status = 429
      · simp only [fetch_posts_go, hr, h429, if_true, reduceIte, List.append_assoc]
        exact ih (attempt + 1) _ _ _
      · simp [fetch_posts_go, hr, h429, List.append_assoc]
    | netError =>
      simp [fetch_posts_go, hr, List.append_assoc]
    | ok posts =>
      simp [fetch_posts_go, hr, List.append_assoc]

/-- One whole `fetch` call preserves the spacing invariant across the
accumulated request history. -/
theorem reddit_fetch_inv (resp : Nat → RedditResp) (jitter : Nat → ℚ)
    (config : RedditConfig) (s : RLState) (acc : List ℚ)
    (hj : ∀ i, 0 ≤ jitter i) (hi : RLInv acc s) :
    RLInv (acc ++ (reddit_fetch resp jitter config s).request_times)
      (reddit_fetch resp jitter config s).state := by
  unfold reddit_fetch
  by_cases hc : truthy config.subreddit = false
  · simp only [hc, if_true, reduceIte, List.append_nil]
    exact hi
  · simp only [hc, if_false, reduceIte]
    have hshift := fetch_posts_go_shift resp jitter (config.subreddit.getD "")
      MAX_RETRIES 0 s acc []
    rw [List.append_nil] at hshift
    have hinv := fetch_posts_go_inv resp jitter (config.subreddit.getD "") hj
      MAX_RETRIES 0 s acc hi
    rw [hshift.1, hshift.2.1] at hinv
    exact hinv

/-- A sequence of `fetch` calls on one instance preserves the spacing
invariant over the concatenation of all calls' request times. -/
theorem reddit_run_inv (config : RedditConfig) :
    ∀ (calls : List RedditCall) (s : RLState) (acc : List ℚ),
      (∀ c ∈ calls, ∀ i, 0 ≤ c.jitter i) → RLInv acc s →
      RLInv (acc ++ (reddit_run config calls s).2) (reddit_run config calls s).1 := by
  intro calls
  induction calls with
  | nil =>
    intro s acc _ hi
    simpa [reddit_run] using hi
  | cons c rest ih =>
    intro s acc hj hi
    have hi0 : RLInv acc { s with clock := s.clock + c.gap } := ⟨hi.1, hi.2⟩
    have h1 := reddit_fetch_inv c.resp c.jitter config
      { s with clock := s.clock + c.gap } acc
      (hj c (List.mem_cons_self c rest)) hi0
    have h2 := ih (reddit_fetch c.resp c.jitter config
        { s with clock := s.clock + c.gap }).state
      (acc ++ (reddit_fetch c.resp c.jitter config
        { s with clock := s.clock + c.gap }).request_times)
      (fun c' hc' => hj c' (List.mem_cons_of_mem c hc')) h1
    simp only [reddit_run]
    rw [← List.append_assoc]
    exact h2

/-- Claim C6: over any sequence of consecutive `fetch` calls on one Reddit
crawler instance in which no attempt is throttled, any two consecutive
outbound requests issued by that instance are at least the configured minimum
spacing of 5 seconds apart on the modelled wall clock.  The jitter draws of
`uniform(0.5, 1.5)` enter only through the (weaker) hypothesis that they are
non-negative; the instance starts from its constructor state
`_last_request_time = 0`. -/
theorem reddit_consecutive_requests_spaced (config : RedditConfig)
    (calls : List RedditCall) (t0 : ℚ)
    (hj : ∀ c ∈ calls, ∀ i, 0 ≤ c.jitter i)
    (hth : ∀ c ∈ calls, ∀ i, ¬ isThrottle (c.resp i)) :
    (reddit_run config calls { last_request_time := 0, clock := t0 }).2.Chain'
      (fun a b => a + 5 ≤ b) := by
  have h := reddit_run_inv config calls { last_request_time := 0, clock := t0 } []
    hj ⟨List.chain'_nil, by simp⟩
  have h2 := h.1
  rw [List.nil_append] at h2
  exact h2

/-- Witness for C6: two back-to-back successful calls on one instance. -/
theorem reddit_consecutive_requests_spaced_witness :
    (reddit_run { subreddit := some "x" }
        [{ resp := fun _ => .ok [], jitter := fun _ => 1, gap := 0 },
         { resp := fun _ => .ok [], jitter := fun _ => 1, gap := 2 }]
        { last_request_time := 0, clock := 0 }).2.Chain'
      (fun a b => a + 5 ≤ b) :=
  reddit_consecutive_requests_spaced { subreddit := some "x" }
    [{ resp := fun _ => .ok [], jitter := fun _ => 1, gap := 0 },
     { resp := fun _ => .ok [], jitter := fun _ => 1, gap := 2 }] 0
    (by intro c hc i
        simp only [List.mem_cons, List.not_mem_nil, or_false] at hc
        rcases hc with rfl | rfl <;> exact zero_le_one)
    (by intro c hc i
        simp only [List.mem_cons, List.not_mem_nil, or_false] at hc
        rcases hc with rfl | rfl <;> exact not_false)

end HNDaily
